import Mathlib

/-!
Verification of the `http_forward` request-mirroring proxy (`src/main.py`)
against its natural-language specification.

The embedding is shallow and executable:

* An inbound request is a `Request` value: the attributes of the framework's
  request object that `main.py` reads (`request.method`, `str(request.url)`,
  `request.url.query`, `request.client.host`, `request.headers`,
  `request.query_params`, and the body bytes).  The framework caches the body
  after the first `await request.body()`, so every read in one request's
  lifetime yields the same bytes; the single `body` field encodes that cache.
* The outbound HTTP client is a parameter `Transport`: a function from the
  outbound request the code builds to either a response or a raised
  transport-level exception (`Except.error` models a raised exception, with
  the exception's string detail as payload).
* `json.loads` success/failure on the decoded body is a parameter of
  `log_request` (the parsed JSON value itself is only serialized back into a
  log line, so only success/failure is observable downstream).
* `bytes.decode()` (strict UTF-8) is modelled concretely by `utf8Decode`.
* Header containers (`starlette`/`httpx` `Headers`) normalize keys to
  lowercase and are converted to a Python `dict` by the code; `pyDict` models
  `dict(pairs)` (order of first occurrence, last value wins).
-/

/-- Bytes are naturals < 256; byte-string literals in the code are ASCII. -/
def strBytes (s : String) : List Nat :=
  s.data.map Char.toNat

/-- ASCII lowercasing of one character (header names are ASCII). -/
def lowerChar (c : Char) : Char :=
  if 'A' ≤ c && c ≤ 'Z' then Char.ofNat (c.toNat + 32) else c

/-- ASCII lowercasing of a header name, as the `Headers` containers of
starlette and httpx normalize keys. -/
def lowerStr (s : String) : String :=
  String.mk (s.data.map lowerChar)

instance {ε α : Type} [DecidableEq ε] [DecidableEq α] : DecidableEq (Except ε α) := fun x y =>
  match x, y with
  | Except.ok a, Except.ok b => decidable_of_iff (a = b) (by simp)
  | Except.error a, Except.error b => decidable_of_iff (a = b) (by simp)
  | Except.ok _, Except.error _ => isFalse (by simp)
  | Except.error _, Except.ok _ => isFalse (by simp)

/-- Python `dict(pairs)`: key order is first occurrence, and a repeated key
keeps the last value. -/
def pyDict (ps : List (String × String)) : List (String × String) :=
  ps.foldl
    (fun acc p =>
      if acc.any (fun q => q.1 == p.1) then
        acc.map (fun q => if q.1 == p.1 then (q.1, p.2) else q)
      else
        acc ++ [p])
    []

/-- `dict(headersObject)` where the header container (starlette or httpx
`Headers`) yields lowercase keys. -/
def headersAsDict (hs : List (String × String)) : List (String × String) :=
  pyDict (hs.map (fun p => (lowerStr p.1, p.2)))

/-- `d.pop(key, None)` on a Python dict: remove the entry with that key. -/
def popKey (key : String) (d : List (String × String)) : List (String × String) :=
  d.filter (fun p => p.1 != key)

/-- `headersObject.get(key)`: case-insensitive lookup (httpx `Headers.get`). -/
def headersGet (key : String) (hs : List (String × String)) : Option String :=
  ((hs.map (fun p => (lowerStr p.1, p.2))).find? (fun p => p.1 == key)).map (fun p => p.2)

/-- Is the byte a UTF-8 continuation byte (`0x80`–`0xBF`)? -/
def isCont (b : Nat) : Bool :=
  0x80 ≤ b && b ≤ 0xBF

/-- Strict UTF-8 decoding of bytes into code points, as Python's
`bytes.decode()` with the default codec; `none` models a raised
`UnicodeDecodeError`. -/
def utf8Decode : List Nat → Option (List Nat)
  | [] => some []
  | b :: rest =>
    if b ≤ 0x7F then
      (utf8Decode rest).map (fun cs => b :: cs)
    else if 0xC2 ≤ b && b ≤ 0xDF then
      match rest with
      | b1 :: rest2 =>
        if isCont b1 then
          (utf8Decode rest2).map (fun cs => ((b - 0xC0) * 0x40 + (b1 - 0x80)) :: cs)
        else none
      | [] => none
    else if 0xE0 ≤ b && b ≤ 0xEF then
      match rest with
      | b1 :: b2 :: rest3 =>
        let lo1 := if b == 0xE0 then 0xA0 else 0x80
        let hi1 := if b == 0xED then 0x9F else 0xBF
        if (lo1 ≤ b1 && b1 ≤ hi1) && isCont b2 then
          (utf8Decode rest3).map
            (fun cs => ((b - 0xE0) * 0x1000 + (b1 - 0x80) * 0x40 + (b2 - 0x80)) :: cs)
        else none
      | _ => none
    else if 0xF0 ≤ b && b ≤ 0xF4 then
      match rest with
      | b1 :: b2 :: b3 :: rest4 =>
        let lo1 := if b == 0xF0 then 0x90 else 0x80
        let hi1 := if b == 0xF4 then 0x8F else 0xBF
        if ((lo1 ≤ b1 && b1 ≤ hi1) && isCont b2) && isCont b3 then
          (utf8Decode rest4).map
            (fun cs =>
              ((b - 0xF0) * 0x40000 + (b1 - 0x80) * 0x1000 + (b2 - 0x80) * 0x40 + (b3 - 0x80)) :: cs)
        else none
      | _ => none
    else none

/-- The inbound request as `main.py` observes it through the framework's
request object.  `headers` lists the header items the framework exposes
(starlette lowercases the keys); `body` is the cached result of
`await request.body()`. -/
structure Request where
  method : String
  url : String
  query : String
  client_host : Option String
  headers : List (String × String)
  query_params : List (String × String)
  body : List Nat
  deriving DecidableEq, Repr

/-- An `httpx.Response`: status code, header items (lowercase keys), and the
fully-read body bytes (`response.content`). -/
structure HttpxResponse where
  status_code : Nat
  headers : List (String × String)
  content : List Nat
  deriving DecidableEq, Repr

/-- The outbound request handed to `client.request(...)` in
`forward_request` (`src/main.py` lines 78–84): method, full URL, header
dict, and body content. -/
structure OutboundRequest where
  method : String
  url : String
  headers : List (String × String)
  content : List Nat
  deriving DecidableEq, Repr

/-- The outbound HTTP client: either a response (any status code) or a raised
transport-level exception, whose string detail is the error payload. -/
def Transport : Type :=
  OutboundRequest → Except String HttpxResponse

/-- A `fastapi.responses.Response` as constructed by the handler: body
content, status code, header dict, and `media_type`. -/
structure StarletteResponse where
  content : List Nat
  status_code : Nat
  headers : List (String × String)
  media_type : Option String
  deriving DecidableEq, Repr

/-- The `body` field of the log dict built by `log_request`: `None` for an
empty body, a parsed JSON value (only its source text is observable
downstream), or the decoded text fallback. -/
inductive BodyData where
  | empty : BodyData
  | jsonData (decodedText : List Nat) : BodyData
  | textData (decodedText : List Nat) : BodyData
  deriving DecidableEq, Repr

/-- The log dict returned by `log_request` (`src/main.py` lines 50–58); the
`time` field is wall-clock noise and is omitted. -/
structure LogData where
  method : String
  url : String
  client_ip : Option String
  headers : List (String × String)
  query_params : List (String × String)
  body : BodyData
  deriving DecidableEq, Repr

/-- `log_request` (`src/main.py` lines 42–60).

```
body = await request.body()
try:
    body_data = json.loads(body.decode()) if body else None
except:
    body_data = body.decode() if body else None
log_data = {...}
logger.info(json.dumps(log_data, ensure_ascii=False))
return log_data
```

`jsonLoads` is the external `json.loads` success predicate on the decoded
text.  A `none` from `utf8Decode` is a raised `UnicodeDecodeError`; note that
the bare `except:` fallback calls `body.decode()` a second time, so a body
that is not valid UTF-8 raises out of `log_request` (the `Except.error`
branch).  `logger.info` failures are swallowed by the logging module and do
not appear. -/
def log_request (jsonLoads : List Nat → Bool) (request : Request) :
    Except String LogData :=
  let body := request.body
  let body_data : Except String BodyData :=
    if body.isEmpty then
      Except.ok BodyData.empty
    else
      match utf8Decode body with
      | some text =>
        if jsonLoads text then
          Except.ok (BodyData.jsonData text)
        else
          -- json.loads raised; `except:` falls back to body.decode(),
          -- which succeeds again on the same bytes.
          Except.ok (BodyData.textData text)
      | none =>
        -- body.decode() raised; `except:` calls body.decode() again on the
        -- same bytes, which raises UnicodeDecodeError out of the function.
        Except.error "UnicodeDecodeError"
  match body_data with
  | Except.error e => Except.error e
  | Except.ok bd =>
    Except.ok
      { method := request.method
        url := request.url
        client_ip := request.client_host
        headers := headersAsDict request.headers
        query_params := pyDict request.query_params
        body := bd }

/-- The outbound request built inside `forward_request`
(`src/main.py` lines 65–84):

```
body = await request.body()
headers = dict(request.headers)
headers.pop('host', None)
full_url = f"{url}?{request.url.query}" if request.url.query else url
client.request(method=request.method, url=full_url, headers=headers,
               content=body, follow_redirects=True)
``` -/
def build_outbound (url : String) (request : Request) : OutboundRequest :=
  { method := request.method
    url := if request.query != "" then url ++ "?" ++ request.query else url
    headers := popKey "host" (headersAsDict request.headers)
    content := request.body }

/-- `forward_request` (`src/main.py` lines 62–105).  The `try:` body issues
the outbound request and returns the response; the `except:` branch logs an
error event (carrying `url` and `str(e)`) and then executes a bare `raise`,
re-raising the exception to the caller — modelled as `Except.error e`
propagating unchanged.  The `client` parameter is the transport. -/
def forward_request (transport : Transport) (url : String) (request : Request) :
    Except String HttpxResponse :=
  match transport (build_outbound url request) with
  | Except.ok response =>
    -- logger.debug(received_response); return response
    Except.ok response
  | Except.error e =>
    -- logger.error(forwarding_error with forward_url=url and error=str(e)); raise
    Except.error e

/-- The task-list construction loop in `forward`
(`src/main.py` lines 113–121): index 0 is inserted at the front, every other
task is appended. -/
def buildTasks (transport : Transport) (request : Request)
    (forward_urls : List String) : List (Except String HttpxResponse) :=
  forward_urls.enum.foldl
    (fun tasks iu =>
      if iu.1 == 0 then
        forward_request transport iu.2 request :: tasks
      else
        tasks ++ [forward_request transport iu.2 request])
    []

/-- `asyncio.gather(*tasks, return_exceptions=True)`
(`src/main.py` line 124): each task's raised exception is returned as a value
in positional order, and the join itself completes without raising. -/
def gather (tasks : List (Except String HttpxResponse)) :
    Except String (List (Except String HttpxResponse)) :=
  Except.ok tasks

/-- The synthesized 502 response (`src/main.py` lines 152–156). -/
def noValidResponse : StarletteResponse :=
  { content := strBytes "\x7b\"error\": \"No valid response from primary URL\"\x7d"
    status_code := 502
    headers := []
    media_type := some "application/json" }

/-- The synthesized 500 response of the orchestration-fault branch
(`src/main.py` lines 131–135). -/
def forwardingFailed : StarletteResponse :=
  { content := strBytes "\x7b\"error\": \"Forwarding failed\"\x7d"
    status_code := 500
    headers := []
    media_type := some "application/json" }

/-- The primary-success translation (`src/main.py` lines 140–150), inlined in
the handler:

```
headers = dict(primary_response.headers)
headers.pop('content-encoding', None)
headers.pop('content-length', None)
headers.pop('transfer-encoding', None)
return Response(content=primary_response.content,
                status_code=primary_response.status_code,
                headers=headers,
                media_type=primary_response.headers.get('content-type'))
``` -/
def translate_primary (r : HttpxResponse) : StarletteResponse :=
  let headers0 := headersAsDict r.headers
  let headers1 := popKey "content-encoding" headers0
  let headers2 := popKey "content-length" headers1
  let headers3 := popKey "transfer-encoding" headers2
  { content := r.content
    status_code := r.status_code
    headers := headers3
    media_type := headersGet "content-type" r.headers }

/-- The request handler `forward` (`src/main.py` lines 107–156).
`forward_urls` is `CONFIG['forward_urls']`.  An `Except.error` result models
an exception escaping the handler (the framework would then produce its own
internal-server-error reply; the handler itself returned nothing). -/
def forward (jsonLoads : List Nat → Bool) (transport : Transport)
    (request : Request) (forward_urls : List String) :
    Except String StarletteResponse :=
  match log_request jsonLoads request with
  | Except.error e => Except.error e
  | Except.ok _log_data =>
    let tasks := buildTasks transport request forward_urls
    match gather tasks with
    | Except.error _e =>
      -- logger.error(forwarding_failed)
      Except.ok forwardingFailed
    | Except.ok responses =>
      -- primary_response = responses[0] if responses else None
      -- if primary_response and isinstance(primary_response, httpx.Response):
      --   (httpx.Response defines no __bool__, so a live response is truthy
      --    whatever its status; an exception value fails the isinstance test)
      match (if responses.isEmpty then none else responses.head?) with
      | some (Except.ok primary) => Except.ok (translate_primary primary)
      | _ => Except.ok noValidResponse

/-! ### Concrete fixtures (used by witnesses and counterexamples) -/

/-- A `json.loads` that fails on every text (non-JSON bodies). -/
def jsonNever : List Nat → Bool := fun _ => false

/-- An inbound POST with a query string and an empty body. -/
def reqQuery : Request :=
  { method := "POST"
    url := "http://proxy.local/some/path?a=1&b=2"
    query := "a=1&b=2"
    client_host := some "127.0.0.1"
    headers := [("host", "proxy.local"), ("content-type", "application/json"), ("x-custom", "1")]
    query_params := [("a", "1"), ("b", "2")]
    body := [] }

/-- The same inbound request without a query string. -/
def reqPlain : Request :=
  { reqQuery with url := "http://proxy.local/some/path", query := "", query_params := [] }

/-- An inbound request whose body is the single byte `0xFF`: not valid
UTF-8, so `body.decode()` raises. -/
def reqBinary : Request :=
  { reqPlain with body := [0xFF] }

/-- An inbound request whose body is the ASCII text `hi` (valid UTF-8, not
valid JSON). -/
def reqText : Request :=
  { reqPlain with body := strBytes "hi" }

/-- A primary response: HTTP 404 with a JSON body, framing headers, and a
custom trace header. -/
def respPrimary : HttpxResponse :=
  { status_code := 404
    headers :=
      [("content-type", "application/json"), ("content-length", "19"),
       ("content-encoding", "identity"), ("transfer-encoding", "chunked"),
       ("x-trace-id", "abc")]
    content := strBytes "\x7b\"msg\":\"not found\"\x7d" }

/-- A bland secondary response: HTTP 200, no headers. -/
def respSecondary : HttpxResponse :=
  { status_code := 200, headers := [], content := strBytes "ok" }

/-- A transport on which every dispatch raises a connection error. -/
def failTransport : Transport := fun _ => Except.error "connection refused"

/-- A transport on which every dispatch succeeds with `respSecondary`. -/
def okTransport : Transport := fun _ => Except.ok respSecondary

/-- Destination-keyed transport: `one.example` answers `respPrimary`,
`two.example` is unreachable, everything else answers `respSecondary`. -/
def mixedTransport : Transport := fun o =>
  if o.url = "http://one.example" then Except.ok respPrimary
  else if o.url = "http://two.example" then Except.error "connection timed out"
  else Except.ok respSecondary

/-- A transport on which the primary `one.example` times out while every
other destination succeeds. -/
def primaryDownTransport : Transport := fun o =>
  if o.url = "http://one.example" then Except.error "connection timed out"
  else Except.ok respSecondary

/-- A transport on which the primary `one.example` succeeds with
`respSecondary` while every other destination is refused. -/
def secondaryDownTransport : Transport := fun o =>
  if o.url = "http://one.example" then Except.ok respSecondary
  else Except.error "connection refused"

/-! ### Structural lemmas -/

/-- The task-building loop over `enumerate` with a positive starting index
only ever appends, so it reduces to `map`. -/
lemma buildTasks_enumFrom (transport : Transport) (request : Request) :
    ∀ (l : List String) (n : Nat) (acc : List (Except String HttpxResponse)),
      0 < n →
      (l.enumFrom n).foldl
          (fun tasks iu =>
            if iu.1 == 0 then forward_request transport iu.2 request :: tasks
            else tasks ++ [forward_request transport iu.2 request]) acc
        = acc ++ l.map (fun u => forward_request transport u request) := by
  intro l
  induction l with
  | nil => intro n acc _; simp
  | cons u rest ih =>
    intro n acc hn
    have hne : (n == 0) = false := by
      cases n with
      | zero => exact absurd rfl (Nat.pos_iff_ne_zero.mp hn)
      | succ m => rfl
    rw [List.enumFrom_cons, List.foldl_cons]
    simp only [hne, Bool.false_eq_true, if_false]
    rw [ih (n + 1) _ (Nat.succ_pos n)]
    simp

/-- The `insert(0, ...)`/`append` loop preserves the destination order: the
task list is the dispatch of each destination in list order. -/
lemma buildTasks_eq_map (transport : Transport) (request : Request) :
    ∀ forward_urls : List String,
      buildTasks transport request forward_urls
        = forward_urls.map (fun u => forward_request transport u request) := by
  intro urls
  cases urls with
  | nil => rfl
  | cons u rest =>
    unfold buildTasks
    rw [List.enum_cons, List.foldl_cons]
    have h0 : (0 == 0) = true := rfl
    simp only [h0, if_true]
    rw [buildTasks_enumFrom transport request rest 1 _ Nat.one_pos]
    simp

/-- Reduction of the handler on a non-empty destination list: once the
inbound log step succeeds, the reply is decided by the primary dispatch
alone. -/
lemma forward_cons (jsonLoads : List Nat → Bool) (transport : Transport)
    (request : Request) (u : String) (rest : List String)
    (hlog : ∃ d, log_request jsonLoads request = Except.ok d) :
    forward jsonLoads transport request (u :: rest)
      = match forward_request transport u request with
        | Except.ok r => Except.ok (translate_primary r)
        | Except.error _ => Except.ok noValidResponse := by
  obtain ⟨d, hd⟩ := hlog
  unfold forward
  rw [hd, buildTasks_eq_map]
  simp only [gather, List.map_cons, List.isEmpty_cons, Bool.false_eq_true, if_false,
    List.head?_cons]
  cases forward_request transport u request <;> rfl

/-- Reduction of the handler on an empty destination list. -/
lemma forward_nil (jsonLoads : List Nat → Bool) (transport : Transport)
    (request : Request)
    (hlog : ∃ d, log_request jsonLoads request = Except.ok d) :
    forward jsonLoads transport request [] = Except.ok noValidResponse := by
  obtain ⟨d, hd⟩ := hlog
  unfold forward
  rw [hd]
  rfl

/-! ### Claim theorems -/

/-- C1: when the primary (index-0) dispatch completes as an HTTP exchange —
with any status code, 4xx/5xx included — the handler replies with the
translated primary outcome, whose status code and body bytes equal the
primary response's verbatim; an HTTP-level error status is not a dispatch
failure and the synthesized 502 branch is not taken. -/
theorem primary_success_passthrough
    (jsonLoads : List Nat → Bool) (transport : Transport) (request : Request)
    (u : String) (rest : List String) (r : HttpxResponse)
    (hlog : ∃ d, log_request jsonLoads request = Except.ok d)
    (hpri : forward_request transport u request = Except.ok r) :
    forward jsonLoads transport request (u :: rest) = Except.ok (translate_primary r)
      ∧ (translate_primary r).status_code = r.status_code
      ∧ (translate_primary r).content = r.content := by
  refine ⟨?_, rfl, rfl⟩
  rw [forward_cons jsonLoads transport request u rest hlog, hpri]

/-- Witness for C1: the primary answers HTTP 404 with body
`{"msg":"not found"}` and the client receives status 404 with that body
verbatim. -/
theorem primary_success_passthrough_witness :
    forward jsonNever mixedTransport reqPlain
        ["http://one.example", "http://three.example"]
      = Except.ok (translate_primary respPrimary)
      ∧ (translate_primary respPrimary).status_code = 404
      ∧ (translate_primary respPrimary).content = strBytes "\x7b\"msg\":\"not found\"\x7d" := by
  obtain ⟨h1, h2, h3⟩ := primary_success_passthrough jsonNever mixedTransport reqPlain
    "http://one.example" ["http://three.example"] respPrimary ⟨_, rfl⟩ (by decide)
  exact ⟨h1, h2.trans (by decide), h3.trans (by decide)⟩

/-- C2: the client-facing reply depends only on the index-0 outcome — two
runs with the same primary outcome and arbitrarily different non-primary
destinations and outcomes produce the identical reply; in particular a
failed primary yields the synthesized 502 even if a secondary succeeded. -/
theorem final_response_depends_only_on_primary
    (jsonLoads : List Nat → Bool) (t1 t2 : Transport) (request : Request)
    (u : String) (rest1 rest2 : List String)
    (hlog : ∃ d, log_request jsonLoads request = Except.ok d)
    (h0 : forward_request t1 u request = forward_request t2 u request) :
    forward jsonLoads t1 request (u :: rest1) = forward jsonLoads t2 request (u :: rest2)
      ∧ (∀ e, forward_request t1 u request = Except.error e →
          forward jsonLoads t1 request (u :: rest1) = Except.ok noValidResponse) := by
  constructor
  · rw [forward_cons jsonLoads t1 request u rest1 hlog,
      forward_cons jsonLoads t2 request u rest2 hlog, h0]
  · intro e he
    rw [forward_cons jsonLoads t1 request u rest1 hlog, he]

/-- Witness for C2: a run where every secondary fails matches a run where
every secondary succeeds (same primary outcome), and a timed-out primary
with a healthy secondary still yields the 502 reply. -/
theorem final_response_depends_only_on_primary_witness :
    forward jsonNever okTransport reqPlain ["http://one.example", "http://three.example"]
        = forward jsonNever secondaryDownTransport reqPlain
            ["http://one.example", "http://two.example"]
      ∧ forward jsonNever primaryDownTransport reqPlain
          ["http://one.example", "http://three.example"] = Except.ok noValidResponse := by
  refine ⟨(final_response_depends_only_on_primary jsonNever okTransport secondaryDownTransport
      reqPlain "http://one.example" ["http://three.example"] ["http://two.example"]
      ⟨_, rfl⟩ (by decide)).1, ?_⟩
  exact (final_response_depends_only_on_primary jsonNever primaryDownTransport
      primaryDownTransport reqPlain "http://one.example" ["http://three.example"]
      ["http://three.example"] ⟨_, rfl⟩ rfl).2 "connection timed out" (by decide)

/-- C3: the outbound URL is the destination base URL plus `?` and the raw
query string when the query is non-empty, exactly the base URL otherwise,
and it depends on the inbound request only through the query string — the
request path is never appended. -/
theorem outbound_url_construction (url : String) (request : Request) :
    (request.query ≠ "" → (build_outbound url request).url = url ++ "?" ++ request.query)
      ∧ (request.query = "" → (build_outbound url request).url = url)
      ∧ (∀ request2 : Request, request2.query = request.query →
          (build_outbound url request2).url = (build_outbound url request).url) := by
  refine ⟨fun h => ?_, fun h => ?_, fun request2 h => ?_⟩
  · simp [build_outbound, h]
  · simp [build_outbound, h]
  · simp [build_outbound, h]

/-- Witness for C3: with query `a=1&b=2` the outbound URL is
`<base>?a=1&b=2`; with no query it is exactly `<base>`. -/
theorem outbound_url_construction_witness :
    (build_outbound "http://one.example" reqQuery).url = "http://one.example?a=1&b=2"
      ∧ (build_outbound "http://one.example" reqPlain).url = "http://one.example" := by
  constructor
  · exact ((outbound_url_construction "http://one.example" reqQuery).1
      (by decide)).trans (by decide)
  · exact (outbound_url_construction "http://one.example" reqPlain).2.1 rfl

/-- C4 (counterexample): at a concrete transport failure the dispatcher
call's outcome is a propagated exception, not a returned Failure value —
the bare `raise` in the `except:` branch re-raises the fault out of
`forward_request`, so the call is not `ok` for any tagged value. -/
theorem forward_request_raises_counterexample :
    (forward_request failTransport "http://one.example" reqPlain).isOk = false
      ∧ forward_request failTransport "http://one.example" reqPlain
          = Except.error "connection refused" :=
  ⟨rfl, rfl⟩

/-- C4 (amended): on a transport-level error `forward_request` logs an event
(carrying the destination URL and error detail) and re-raises, so the
exception propagates to its caller unchanged; it is the coordinator's
`gather(..., return_exceptions=True)` join that captures it as a value, so
no fault escapes the handler and a failed primary surfaces as the 502
reply. -/
theorem transport_error_reraised_then_captured
    (jsonLoads : List Nat → Bool) (transport : Transport) (request : Request)
    (u : String) (rest : List String) (e : String)
    (htr : transport (build_outbound u request) = Except.error e)
    (hlog : ∃ d, log_request jsonLoads request = Except.ok d) :
    forward_request transport u request = Except.error e
      ∧ forward jsonLoads transport request (u :: rest) = Except.ok noValidResponse := by
  have h1 : forward_request transport u request = Except.error e := by
    unfold forward_request
    rw [htr]
  exact ⟨h1, by rw [forward_cons jsonLoads transport request u rest hlog, h1]⟩

/-- Witness for the amended C4: a refused connection propagates out of the
dispatcher as the same error and the handler still answers 502. -/
theorem transport_error_reraised_then_captured_witness :
    forward_request failTransport "http://one.example" reqPlain
        = Except.error "connection refused"
      ∧ forward jsonNever failTransport reqPlain ["http://one.example"]
          = Except.ok noValidResponse :=
  transport_error_reraised_then_captured jsonNever failTransport reqPlain
    "http://one.example" [] "connection refused" rfl ⟨_, rfl⟩

/-- C5: with an empty `forward_urls` list the handler replies 502 with body
exactly `{"error": "No valid response from primary URL"}` and creates no
dispatch task at all. -/
theorem empty_urls_yield_502
    (jsonLoads : List Nat → Bool) (transport : Transport) (request : Request)
    (hlog : ∃ d, log_request jsonLoads request = Except.ok d) :
    forward jsonLoads transport request [] = Except.ok noValidResponse
      ∧ noValidResponse.status_code = 502
      ∧ noValidResponse.content
          = strBytes "\x7b\"error\": \"No valid response from primary URL\"\x7d"
      ∧ buildTasks transport request [] = [] :=
  ⟨forward_nil jsonLoads transport request hlog, rfl, rfl, rfl⟩

/-- Witness for C5 at a concrete request and transport. -/
theorem empty_urls_yield_502_witness :
    forward jsonNever okTransport reqPlain [] = Except.ok noValidResponse
      ∧ buildTasks okTransport reqPlain [] = [] := by
  obtain ⟨h1, -, -, h4⟩ := empty_urls_yield_502 jsonNever okTransport reqPlain ⟨_, rfl⟩
  exact ⟨h1, h4⟩

/-- C6: every destination receives a structurally equivalent outbound
request — same method, same body bytes, and a header set equal to the
captured header dict with exactly `Host` removed — and rebuilding the
outbound request from the same snapshot is byte-identical (the snapshot is
immutable, so a second dispatch replays the same bytes). -/
theorem outbound_request_uniform (request : Request) (u1 u2 : String) :
    (build_outbound u1 request).method = (build_outbound u2 request).method
      ∧ (build_outbound u1 request).content = (build_outbound u2 request).content
      ∧ (build_outbound u1 request).headers = (build_outbound u2 request).headers
      ∧ (build_outbound u1 request).method = request.method
      ∧ (build_outbound u1 request).content = request.body
      ∧ (build_outbound u1 request).headers = popKey "host" (headersAsDict request.headers)
      ∧ build_outbound u1 request = build_outbound u1 request :=
  ⟨rfl, rfl, rfl, rfl, rfl, rfl, rfl⟩

/-- C7: the final headers are the primary's header dict with exactly
`Content-Encoding`, `Content-Length` and `Transfer-Encoding` removed —
those three never appear, every other header survives unchanged — and the
outgoing content type is read from the primary's own `content-type` header
(absent means none). -/
theorem final_headers_sanitized (r : HttpxResponse) :
    (∀ p ∈ (translate_primary r).headers,
        p.1 ≠ "content-encoding" ∧ p.1 ≠ "content-length" ∧ p.1 ≠ "transfer-encoding")
      ∧ (∀ p ∈ headersAsDict r.headers,
          p.1 ≠ "content-encoding" → p.1 ≠ "content-length" → p.1 ≠ "transfer-encoding" →
            p ∈ (translate_primary r).headers)
      ∧ (∀ p ∈ (translate_primary r).headers, p ∈ headersAsDict r.headers)
      ∧ (translate_primary r).media_type = headersGet "content-type" r.headers := by
  refine ⟨?_, ?_, ?_, rfl⟩ <;>
    intro p hp <;>
    simp only [translate_primary, popKey, List.mem_filter, bne_iff_ne, ne_eq] at * <;>
    tauto

/-- Witness for C7: the custom `x-trace-id` header of the 404 primary
response survives into the final response, and the content type is taken
from the primary's own header. -/
theorem final_headers_sanitized_witness :
    ("x-trace-id", "abc") ∈ (translate_primary respPrimary).headers
      ∧ (translate_primary respPrimary).media_type = some "application/json" := by
  refine ⟨(final_headers_sanitized respPrimary).2.1 ("x-trace-id", "abc")
    (by decide) (by decide) (by decide) (by decide), ?_⟩
  exact ((final_headers_sanitized respPrimary).2.2.2).trans (by decide)

/-- C8: the outcome collected at index `i` is the dispatch of the
destination at index `i`, whatever the completion order (the join is
positional); for three destinations with the second unreachable, index 1
holds the Failure while indices 0 and 2 hold their normal results, and the
reply is decided by index 0 alone. -/
theorem positional_outcomes
    (jsonLoads : List Nat → Bool) (transport : Transport) (request : Request)
    (u0 u1 u2 : String) (r0 r2 : HttpxResponse) (e : String)
    (hlog : ∃ d, log_request jsonLoads request = Except.ok d)
    (h0 : forward_request transport u0 request = Except.ok r0)
    (h1 : forward_request transport u1 request = Except.error e)
    (h2 : forward_request transport u2 request = Except.ok r2) :
    (∀ (urls : List String) (i : Nat),
        (buildTasks transport request urls)[i]?
          = urls[i]?.map (fun u => forward_request transport u request))
      ∧ buildTasks transport request [u0, u1, u2]
          = [Except.ok r0, Except.error e, Except.ok r2]
      ∧ forward jsonLoads transport request [u0, u1, u2]
          = Except.ok (translate_primary r0) := by
  refine ⟨?_, ?_, ?_⟩
  · intro urls i
    rw [buildTasks_eq_map]
    exact List.getElem?_map _ urls i
  · rw [buildTasks_eq_map]
    simp [h0, h1, h2]
  · rw [forward_cons jsonLoads transport request u0 [u1, u2] hlog, h0]

/-- Witness for C8: three concrete destinations, the second unreachable. -/
theorem positional_outcomes_witness :
    buildTasks mixedTransport reqPlain
        ["http://one.example", "http://two.example", "http://three.example"]
      = [Except.ok respPrimary, Except.error "connection timed out",
         Except.ok respSecondary]
      ∧ forward jsonNever mixedTransport reqPlain
          ["http://one.example", "http://two.example", "http://three.example"]
        = Except.ok (translate_primary respPrimary) := by
  obtain ⟨-, hb, hf⟩ := positional_outcomes jsonNever mixedTransport reqPlain
    "http://one.example" "http://two.example" "http://three.example"
    respPrimary respSecondary "connection timed out" ⟨_, rfl⟩ (by decide) (by decide) (by decide)
  exact ⟨hb, hf⟩

/-- C9 (code evaluated at the failing input): a body of the single byte
`0xFF` is not valid UTF-8, the bare-`except:` fallback calls
`body.decode()` a second time, and the `UnicodeDecodeError` escapes
`log_request` — the handler aborts before any dispatch instead of
swallowing the logging failure.  A JSON-decode failure alone (ASCII body
`hi`) is swallowed as the claim demands. -/
theorem log_failure_aborts_request :
    log_request jsonNever reqBinary = Except.error "UnicodeDecodeError"
      ∧ forward jsonNever okTransport reqBinary ["http://one.example"]
          = Except.error "UnicodeDecodeError"
      ∧ (∃ d, log_request jsonNever reqText = Except.ok d) :=
  ⟨rfl, rfl, ⟨_, rfl⟩⟩

/-- C10: the join returns per-task exceptions as values
(`return_exceptions=True`), so a dispatch exception can never reach the
handler's `except` branch — a primary failure surfaces as the 502 reply and
never as the 500 `Forwarding failed` response. -/
theorem dispatch_exception_cannot_reach_500
    (jsonLoads : List Nat → Bool) (transport : Transport) (request : Request)
    (u : String) (rest : List String) (e : String)
    (hlog : ∃ d, log_request jsonLoads request = Except.ok d)
    (hfail : forward_request transport u request = Except.error e) :
    (∀ tasks, gather tasks = Except.ok tasks)
      ∧ forward jsonLoads transport request (u :: rest) = Except.ok noValidResponse
      ∧ forward jsonLoads transport request (u :: rest) ≠ Except.ok forwardingFailed := by
  have h2 : forward jsonLoads transport request (u :: rest) = Except.ok noValidResponse := by
    rw [forward_cons jsonLoads transport request u rest hlog, hfail]
  refine ⟨fun _ => rfl, h2, ?_⟩
  rw [h2]
  decide

/-- Witness for C10: a timed-out primary with a healthy secondary gives the
502 reply, not the 500 orchestration-fault body. -/
theorem dispatch_exception_cannot_reach_500_witness :
    forward jsonNever primaryDownTransport reqPlain
        ["http://one.example", "http://three.example"] = Except.ok noValidResponse
      ∧ forward jsonNever primaryDownTransport reqPlain
          ["http://one.example", "http://three.example"] ≠ Except.ok forwardingFailed := by
  obtain ⟨-, h2, h3⟩ := dispatch_exception_cannot_reach_500 jsonNever primaryDownTransport
    reqPlain "http://one.example" ["http://three.example"] "connection timed out"
    ⟨_, rfl⟩ (by decide)
  exact ⟨h2, h3⟩
